import Mathlib

/-!
Shallow embedding of the Eureka JS client (`src/EurekaClient.js` together
with the OAuth2 utility module). JS objects are modelled as Lean structures,
string-keyed JS objects as association lists with JS property-assignment
semantics, and the callback-driven HTTP handlers as pure step functions
from the request outcome to the resulting state and observable actions
(callback invocation, emitted signals, scheduled timers).
-/

namespace Eureka

/-- One registry instance record, restricted to the fields the client reads. -/
structure InstanceRecord where
  vipAddress : String
  status : String
deriving DecidableEq

/-- The `app.instance` field of a registry payload: either a bare instance
object or an array of instances. -/
inductive AppInstances where
  | single (i : InstanceRecord)
  | array (l : List InstanceRecord)
deriving DecidableEq

/-- One application entry of a registry payload. `instance` is a reserved
word in Lean, so the field is named `inst`. -/
structure AppRecord where
  name : String
  inst : AppInstances
deriving DecidableEq

/-- The `registry.applications.application` field: a bare application object
or an array of applications. -/
inductive Applications where
  | one (a : AppRecord)
  | many (l : List AppRecord)
deriving DecidableEq

/-- A parsed registry body: `null` (or any falsy parse result), or an object
whose `applications.application` field may be absent (`none`). -/
inductive RegistryVal where
  | nullv
  | obj (application : Option Applications)
deriving DecidableEq

/-- JS property assignment on a string-keyed object: an existing key is
overwritten in place, a new key is appended at the end. -/
def setKey {α : Type} : List (String × α) → String → α → List (String × α)
  | [], k, v => [(k, v)]
  | p :: rest, k, v => if p.1 = k then (k, v) :: rest else p :: setKey rest k v

/-- JS property read on a string-keyed object. -/
def getKey {α : Type} : List (String × α) → String → Option α
  | [], _ => none
  | p :: rest, k => if p.1 = k then some p.2 else getKey rest k

/-- A string-keyed object holding instance lists. -/
abbrev InstMap := List (String × List InstanceRecord)

/-- The two-mapping registry cache (`this.cache`). -/
structure Cache where
  app : InstMap
  vip : InstMap
deriving DecidableEq

/-- The fresh cache `transformRegistry` starts from: `{app: {}, vip: {}}`. -/
def emptyCache : Cache := ⟨[], []⟩

/-- JS `String.prototype.toUpperCase` on the ASCII names the client handles,
written structurally over the character list (Lean's own `String.toUpper` is
extensionally the same but recurses by well-founded positions, which blocks
kernel evaluation). -/
def toUpperCase (s : String) : String := ⟨s.data.map Char.toUpper⟩

/-- `validateInstance`: true if UP-filtering is disabled or the instance
status is `UP`. -/
def validateInstance (filterUpInstances : Bool) (i : InstanceRecord) : Bool :=
  !filterUpInstances || i.status = "UP"

/-- `transformApp`. The source branches on `app.instance.length`, truthy only
for a non-empty array; the VIP key is taken from the first (unfiltered) array
element. An empty array falls into the source's single-instance branch, where
the array value has no `status` field: with filtering enabled nothing is
inserted, and with filtering disabled the source inserts the raw array under
the key "undefined", which has no typed counterpart here and is modelled as
no insertion. -/
def transformApp (filterUpInstances : Bool) (a : AppRecord) (cache : Cache) : Cache :=
  match a.inst with
  | .array (i0 :: rest) =>
      let instances := (i0 :: rest).filter (validateInstance filterUpInstances)
      { app := setKey cache.app (toUpperCase a.name) instances
        vip := setKey cache.vip i0.vipAddress instances }
  | .array [] => cache
  | .single i =>
      if validateInstance filterUpInstances i then
        { vip := setKey cache.vip i.vipAddress [i]
          app := setKey cache.app (toUpperCase a.name) [i] }
      else cache

/-- The cache `transformRegistry` builds for a present `application` entry,
starting from the fresh `{app: {}, vip: {}}` object. -/
def buildCache (filterUpInstances : Bool) (e : Applications) : Cache :=
  match e with
  | .many l => l.foldl (fun c a => transformApp filterUpInstances a c) emptyCache
  | .one a => transformApp filterUpInstances a emptyCache

/-- `transformRegistry`: a falsy registry is only warned about, and a missing
`applications.application` entry returns early; in both cases `this.cache` is
left in place. Otherwise the cache is replaced by the freshly built one. -/
def transformRegistry (filterUpInstances : Bool) (registry : RegistryVal)
    (cache : Cache) : Cache :=
  match registry with
  | .nullv => cache
  | .obj none => cache
  | .obj (some e) => buildCache filterUpInstances e

/-- Outcome of one HTTP request as seen by the `request` callback: a truthy
`error` (transport failure, no response arrived) or a response carrying a
status code and a body. -/
inductive HttpResult (β : Type) where
  | transportError (e : String)
  | response (status : Nat) (body : β)
deriving DecidableEq

/-- Observable outcome of one `fetchRegistry` response handler run. -/
structure FetchOutcome where
  cache : Cache
  /-- `some e`: the caller callback was invoked with error `e`;
  `none`: it was invoked with `null`. -/
  callbackErr : Option String
  emitted : List String
deriving DecidableEq

/-- The response handler of `fetchRegistry`: on a 200 response the body is
transformed into the cache and `registryUpdated` is emitted before the
success callback; a transport error or any other status reports an error and
touches nothing. -/
def fetchRegistryStep (filterUpInstances : Bool) (cache : Cache)
    (r : HttpResult RegistryVal) : FetchOutcome :=
  match r with
  | .transportError e => ⟨cache, some e, []⟩
  | .response status body =>
      if status = 200 then
        ⟨transformRegistry filterUpInstances body cache, none, ["registryUpdated"]⟩
      else
        ⟨cache, some "Unable to retrieve registry from Eureka server", []⟩

/-- `rotateCurrentServiceUrl`: `serviceUrl.push(serviceUrl.shift())`. The
ring is validated non-empty at construction; on the (unreachable) empty list
the JS would push `undefined`, modelled here as the identity. -/
def rotateCurrentServiceUrl (urls : List String) : List String :=
  match urls with
  | [] => []
  | u :: rest => rest ++ [u]

/-- Observable outcome of one `register` response handler run. -/
structure RegisterOutcome where
  serviceUrls : List String
  /-- `some (some e)`: caller callback invoked with error `e`;
  `some none`: invoked with `null` (success); `none`: not invoked on this
  attempt. -/
  callback : Option (Option String)
  /-- Delay of the scheduled re-registration timer, when one was set. -/
  retryBackoff : Option ℤ
  heartbeatsStarted : Bool
  emitted : List String
deriving DecidableEq

/-- `Math.floor(Math.random() * 2000)` for the draw `q` of `Math.random()`. -/
def registerBackoff (q : ℚ) : ℤ := ⌊q * 2000⌋

/-- The response handler of `register`: status 204 emits `registered`, starts
heartbeats and calls back with `null`; a transport error rotates the ring and
schedules a re-registration after `registerBackoff q` without calling back;
any other status calls back with an error and does nothing else. -/
def registerStep (urls : List String) (q : ℚ) (r : HttpResult String) :
    RegisterOutcome :=
  match r with
  | .response status body =>
      if status = 204 then
        ⟨urls, some none, none, true, ["registered"]⟩
      else
        ⟨urls,
         some (some ("eureka registration FAILED: status: " ++ toString status
           ++ " body: " ++ body)),
         none, false, []⟩
  | .transportError _ =>
      ⟨rotateCurrentServiceUrl urls, none, some (registerBackoff q), false, []⟩

/-- Repeated registration attempts: each element of the list is the random
draw and HTTP outcome of one attempt. A scheduled retry re-runs `register`
with the same caller callback, so the run continues exactly while the
callback has not been invoked. Returns the final ring and the callback
invocation, if any. -/
def runRegister (urls : List String) :
    List (ℚ × HttpResult String) → List String × Option (Option String)
  | [] => (urls, none)
  | (q, r) :: rest =>
      let out := registerStep urls q r
      match out.callback with
      | some res => (out.serviceUrls, some res)
      | none => runRegister out.serviceUrls rest

/-- Observable outcome of one `renew` (heartbeat) response handler run. -/
structure RenewOutcome where
  serviceUrls : List String
  heartbeatStopped : Bool
  registerCalled : Bool
  emitted : List String
deriving DecidableEq

/-- The response handler of `renew`: status 200 emits `heartbeat` and changes
nothing; status 404 stops the heartbeat timer and re-registers without
rotating; anything else (transport error or other status) stops the timer,
rotates the ring and re-registers. -/
def renewStep (urls : List String) (r : HttpResult String) : RenewOutcome :=
  match r with
  | .response status _ =>
      if status = 200 then ⟨urls, false, false, ["heartbeat"]⟩
      else if status = 404 then ⟨urls, true, true, []⟩
      else ⟨rotateCurrentServiceUrl urls, true, true, []⟩
  | .transportError _ => ⟨rotateCurrentServiceUrl urls, true, true, []⟩

/-- Result of `dns.resolveTxt`: an error or a list of TXT records, each a
list of strings. -/
abbrev TxtResult := Except String (List (List String))

/-- `locateEurekaHostUsingDns` as a function of its inputs: the configured
region and the outcomes of the two TXT lookups (the random choice among the
first lookup's record only selects the name queried by the second lookup and
does not otherwise affect the result). On success the resolved host is the
first string of the flattened second-lookup records (`undefined`, i.e.
`none`, when empty). Models the first invocation of the callback: on a
second-lookup failure the source reports the error and then falls through. -/
def locateEurekaHostUsingDns (ec2Region : Option String)
    (txt1 txt2 : TxtResult) : Except String (Option String) :=
  match ec2Region with
  | none => .error ("EC2 region was undefined. " ++
      "config.eureka.ec2Region must be set to resolve Eureka using DNS records.")
  | some region =>
      match txt1 with
      | .error e => .error ("Error resolving eureka server list for region ["
          ++ region ++ "] using DNS: [" ++ e ++ "]")
      | .ok _ =>
          match txt2 with
          | .error e => .error ("Error locating eureka server using DNS: ["
              ++ e ++ "]")
          | .ok results => .ok results.flatten.head?

/-- The fields of a parsed URL (node `url.parse`) that `url.format` consults:
`host` wins over `hostname` and `port` when it is set. -/
structure ParsedUrl where
  protocol : String
  host : Option String
  hostname : String
  port : Option String
  pathname : String
deriving DecidableEq

/-- Node `url.format` on the fields above: with `host` unset the URL is
rebuilt from `hostname` and `port`. -/
def urlFormat (p : ParsedUrl) : String :=
  let hostPart :=
    match p.host with
    | some h => h
    | none =>
        p.hostname ++ (match p.port with | some pt => ":" ++ pt | none => "")
  p.protocol ++ "//" ++ hostPart ++ p.pathname

/-- A JS token value: `undefined`/`null`, or an object with an optional
`access_token` field. A bare object such as `\x7b\x7d` is truthy. -/
inductive JsToken where
  | undef
  | obj (access_token : Option String)
deriving DecidableEq

/-- `OAuth2Util.getTokenForClientCredentials`: the stored token starts as the
empty object; on acquisition failure the error is logged and the stored token
is passed to the callback next to the error, while on success the fresh token
replaces the stored one and is passed with a `null` error. -/
def getTokenForClientCredentials (stored : JsToken)
    (acq : Except String String) : Option String × JsToken :=
  match acq with
  | .error e => (some e, stored)
  | .ok accessToken => (none, .obj (some accessToken))

/-- The initial `this.token` of the OAuth2 utility: the empty object. -/
def initialToken : JsToken := .obj none

/-- What `lookupCurrentEurekaHost` passes to its callback. -/
structure LookupResult where
  err : Option String
  url : String
  token : JsToken
deriving DecidableEq

/-- `lookupCurrentEurekaHost` with DNS discovery enabled: the error component
of the DNS outcome is dropped — the callback always receives `null` for the
error — and the resolved host (undefined on failure) is written into the
`host` field of the parsed current service URL before formatting. `tokenRes`
is the pair `getTokenForClientCredentials` delivered when OAuth2 is enabled,
`none` when it is not (the callback then gets a `null` token). -/
def lookupCurrentEurekaHost_dns (parsedCurrent : ParsedUrl)
    (dnsRes : Except String (Option String))
    (tokenRes : Option (Option String × JsToken)) : LookupResult :=
  let resolvedHost : Option String :=
    match dnsRes with
    | .ok h => h
    | .error _ => none
  let parsed := { parsedCurrent with host := resolvedHost }
  match tokenRes with
  | some (_, token) => ⟨none, urlFormat parsed, token⟩
  | none => ⟨none, urlFormat parsed, .undef⟩

/-- `lookupCurrentEurekaHost` without DNS: the current service URL is passed
through unchanged, with the token when OAuth2 is enabled. -/
def lookupCurrentEurekaHost_static (currentServiceUrl : String)
    (tokenRes : Option (Option String × JsToken)) : LookupResult :=
  match tokenRes with
  | some (_, token) => ⟨none, currentServiceUrl, token⟩
  | none => ⟨none, currentServiceUrl, .undef⟩

/-- Request headers, as a string-keyed JS object. -/
abbrev Headers := List (String × String)

/-- `setAuthorizationInHeader`: skipped for a falsy token; otherwise
`Authorization: Bearer <access_token>` is set, a missing `access_token`
field rendering as the string "undefined" under JS string coercion. -/
def setAuthorizationInHeader (headers : Headers) (token : JsToken) : Headers :=
  match token with
  | .undef => headers
  | .obj accessToken =>
      setKey headers "Authorization"
        ("Bearer " ++ (match accessToken with
          | some s => s
          | none => "undefined"))

/-- What an outbound call (register/renew/fetch/deregister) does with the
endpoint-resolution result: on an error it returns it via the caller callback
and issues no request; otherwise it issues the request to the resolved URL
with the authorization header applied to the base headers. -/
def outboundRequest (l : LookupResult) (baseHeaders : Headers) :
    Option (String × Headers) :=
  match l.err with
  | some _ => none
  | none => some (l.url, setAuthorizationInHeader baseHeaders l.token)

/-! Helper lemmas about the JS object-map operations and ring rotation. -/

theorem getKey_setKey_self {α : Type} (m : List (String × α)) (k : String)
    (v : α) : getKey (setKey m k v) k = some v := by
  induction m with
  | nil => simp [setKey, getKey]
  | cons p rest ih =>
      by_cases h : p.1 = k
      · simp [setKey, getKey, h]
      · simp [setKey, getKey, h, ih]

theorem rotateCurrentServiceUrl_eq_rotate (l : List String) :
    rotateCurrentServiceUrl l = l.rotate 1 := by
  cases l with
  | nil => simp [rotateCurrentServiceUrl]
  | cons x xs => simp [rotateCurrentServiceUrl, List.rotate_cons_succ]

theorem iterate_rotateCurrentServiceUrl (n : Nat) (l : List String) :
    rotateCurrentServiceUrl^[n] l = l.rotate n := by
  induction n generalizing l with
  | zero => simp
  | succ n ih =>
      rw [Function.iterate_succ_apply, rotateCurrentServiceUrl_eq_rotate, ih,
        List.rotate_rotate, Nat.add_comm]

/-- Claim C9: endpoint-ring rotation is a cyclic shift that never deletes an
entry: it preserves the length and the multiset of URLs, `length` rotations
are the identity, and on the concrete ring `[A,B,C]` one rotation gives
`[B,C,A]` while three rotations restore `[A,B,C]`. -/
theorem rotate_is_cyclic_shift (l : List String) (hl : l ≠ []) :
    (rotateCurrentServiceUrl l).length = l.length ∧
    (rotateCurrentServiceUrl l).Perm l ∧
    rotateCurrentServiceUrl^[l.length] l = l ∧
    rotateCurrentServiceUrl ["A", "B", "C"] = ["B", "C", "A"] ∧
    rotateCurrentServiceUrl^[3] ["A", "B", "C"] = ["A", "B", "C"] := by
  refine ⟨?_, ?_, ?_, rfl, rfl⟩
  · rw [rotateCurrentServiceUrl_eq_rotate, List.length_rotate]
  · rw [rotateCurrentServiceUrl_eq_rotate]; exact l.rotate_perm 1
  · rw [iterate_rotateCurrentServiceUrl, List.rotate_length]

/-- Witness for C9 on the ring `["A", "B", "C"]`. -/
theorem rotate_is_cyclic_shift_witness :
    (rotateCurrentServiceUrl ["A", "B", "C"]).length =
      (["A", "B", "C"] : List String).length ∧
    (rotateCurrentServiceUrl ["A", "B", "C"]).Perm ["A", "B", "C"] ∧
    rotateCurrentServiceUrl^[(["A", "B", "C"] : List String).length]
      ["A", "B", "C"] = ["A", "B", "C"] ∧
    rotateCurrentServiceUrl ["A", "B", "C"] = ["B", "C", "A"] ∧
    rotateCurrentServiceUrl^[3] ["A", "B", "C"] = ["A", "B", "C"] :=
  rotate_is_cyclic_shift ["A", "B", "C"] (by decide)

/-- Claim C1: a failed `fetchRegistry` (transport error or non-200 status)
leaves the cache exactly as it was and reports the error via the callback;
a 200 response calls back with success and installs a cache that is either
the untouched old snapshot (degenerate body) or one built entirely from the
payload, independent of the previous cache — an atomic replacement. -/
theorem fetchRegistry_frame_and_atomic_replacement (filterUp : Bool)
    (cache : Cache) (r : HttpResult RegistryVal) :
    (∀ e, r = .transportError e →
      fetchRegistryStep filterUp cache r = ⟨cache, some e, []⟩) ∧
    (∀ s b, r = .response s b → s ≠ 200 →
      fetchRegistryStep filterUp cache r =
        ⟨cache, some "Unable to retrieve registry from Eureka server", []⟩) ∧
    (∀ b, r = .response 200 b →
      (fetchRegistryStep filterUp cache r).callbackErr = none ∧
      ((fetchRegistryStep filterUp cache r).cache = cache ∨
        ∃ e, b = .obj (some e) ∧
          (fetchRegistryStep filterUp cache r).cache = buildCache filterUp e)) := by
  refine ⟨?_, ?_, ?_⟩
  · rintro e rfl; rfl
  · rintro s b rfl hs; simp [fetchRegistryStep, hs]
  · rintro b rfl
    refine ⟨by simp [fetchRegistryStep], ?_⟩
    cases b with
    | nullv => exact Or.inl (by simp [fetchRegistryStep, transformRegistry])
    | obj o =>
        cases o with
        | none => exact Or.inl (by simp [fetchRegistryStep, transformRegistry])
        | some e =>
            exact Or.inr ⟨e, rfl, by simp [fetchRegistryStep, transformRegistry]⟩

/-- Witness for C1: a transport error on a non-empty cache leaves it intact
and reports the error. -/
theorem fetchRegistry_frame_and_atomic_replacement_witness :
    fetchRegistryStep true ⟨[("A", [⟨"v", "UP"⟩])], [("v", [⟨"v", "UP"⟩])]⟩
        (.transportError "boom") =
      ⟨⟨[("A", [⟨"v", "UP"⟩])], [("v", [⟨"v", "UP"⟩])]⟩, some "boom", []⟩ :=
  (fetchRegistry_frame_and_atomic_replacement true
    ⟨[("A", [⟨"v", "UP"⟩])], [("v", [⟨"v", "UP"⟩])]⟩
    (.transportError "boom")).1 "boom" rfl

/-- Claim C10: a 200 response whose parsed body is falsy, or whose
`applications.application` entry is absent, leaves the cache untouched while
still emitting `registryUpdated` and calling back with success. -/
theorem fetch200_degenerate_body_keeps_cache (filterUp : Bool) (cache : Cache) :
    fetchRegistryStep filterUp cache (.response 200 .nullv) =
      ⟨cache, none, ["registryUpdated"]⟩ ∧
    fetchRegistryStep filterUp cache (.response 200 (.obj none)) =
      ⟨cache, none, ["registryUpdated"]⟩ :=
  ⟨rfl, rfl⟩

theorem runRegister_transport_errors (urls : List String)
    (attempts : List (ℚ × String)) :
    runRegister urls
        (attempts.map (fun p => (p.1, HttpResult.transportError p.2))) =
      (rotateCurrentServiceUrl^[attempts.length] urls, none) := by
  induction attempts generalizing urls with
  | nil => rfl
  | cons p rest ih =>
      rw [List.map_cons]
      show runRegister (rotateCurrentServiceUrl urls)
        (rest.map (fun p => (p.1, HttpResult.transportError p.2))) = _
      rw [ih, List.length_cons, Function.iterate_succ_apply]

/-- Claim C2: a transport-level registration failure rotates the ring exactly
once, schedules a retry after `Math.floor(Math.random() * 2000)` ms — a value
in `[0, 2000)` for any draw of `Math.random()` — and does not invoke the
caller callback; over any run of consecutive transport failures the callback
is never invoked and the ring is rotated once per attempt. -/
theorem register_transport_error_rotates_and_retries (urls : List String)
    (q : ℚ) (e : String) (h0 : 0 ≤ q) (h1 : q < 1)
    (attempts : List (ℚ × String)) :
    registerStep urls q (.transportError e) =
      ⟨rotateCurrentServiceUrl urls, none, some (registerBackoff q),
        false, []⟩ ∧
    0 ≤ registerBackoff q ∧ registerBackoff q < 2000 ∧
    runRegister urls
        (attempts.map (fun p => (p.1, HttpResult.transportError p.2))) =
      (rotateCurrentServiceUrl^[attempts.length] urls, none) := by
  refine ⟨rfl, ?_, ?_, runRegister_transport_errors urls attempts⟩
  · exact Int.floor_nonneg.mpr (by positivity)
  · refine Int.floor_lt.mpr ?_
    push_cast
    nlinarith

/-- Witness for C2 at the draw `1/2` and one failed attempt. -/
theorem register_transport_error_rotates_and_retries_witness :
    registerStep ["A", "B"] (1/2) (.transportError "err") =
      ⟨rotateCurrentServiceUrl ["A", "B"], none, some (registerBackoff (1/2)),
        false, []⟩ ∧
    0 ≤ registerBackoff (1/2) ∧ registerBackoff (1/2) < 2000 ∧
    runRegister ["A", "B"]
        ([((1 : ℚ)/3, "x")].map (fun p => (p.1, HttpResult.transportError p.2))) =
      (rotateCurrentServiceUrl^[[((1 : ℚ)/3, "x")].length] ["A", "B"], none) :=
  register_transport_error_rotates_and_retries ["A", "B"] (1/2) "err"
    (by norm_num) (by norm_num) [((1 : ℚ)/3, "x")]

/-- Claim C3: a registration response with a status other than 204 invokes
the caller callback with an error immediately, leaves the ring unrotated and
schedules no retry. -/
theorem register_non204_fails_without_retry (urls : List String) (q : ℚ)
    (status : Nat) (body : String) (h : status ≠ 204) :
    registerStep urls q (.response status body) =
      ⟨urls,
       some (some ("eureka registration FAILED: status: " ++ toString status
         ++ " body: " ++ body)),
       none, false, []⟩ := by
  simp [registerStep, h]

/-- Witness for C3 at a 500 response. -/
theorem register_non204_fails_without_retry_witness :
    registerStep ["A", "B"] 0 (.response 500 "oops") =
      ⟨["A", "B"],
       some (some ("eureka registration FAILED: status: " ++ toString 500
         ++ " body: " ++ "oops")),
       none, false, []⟩ :=
  register_non204_fails_without_retry ["A", "B"] 0 500 "oops" (by decide)

/-- Claim C4: a 200 heartbeat response emits `heartbeat` and changes nothing;
a 404 stops the heartbeat timer and re-registers without rotating the ring;
any other outcome (transport error or other status) stops the timer, rotates
the ring exactly once and re-registers. -/
theorem renew_outcome_analysis (urls : List String) (r : HttpResult String) :
    (∀ b, r = .response 200 b →
      renewStep urls r = ⟨urls, false, false, ["heartbeat"]⟩) ∧
    (∀ b, r = .response 404 b →
      renewStep urls r = ⟨urls, true, true, []⟩) ∧
    (∀ e, r = .transportError e →
      renewStep urls r = ⟨rotateCurrentServiceUrl urls, true, true, []⟩) ∧
    (∀ s b, r = .response s b → s ≠ 200 → s ≠ 404 →
      renewStep urls r = ⟨rotateCurrentServiceUrl urls, true, true, []⟩) := by
  refine ⟨?_, ?_, ?_, ?_⟩
  · rintro b rfl; rfl
  · rintro b rfl; rfl
  · rintro e rfl; rfl
  · rintro s b rfl h200 h404; simp [renewStep, h200, h404]

/-- Witness for C4 at a 404 and at a 500 heartbeat response. -/
theorem renew_outcome_analysis_witness :
    renewStep ["A", "B"] (.response 404 "") = ⟨["A", "B"], true, true, []⟩ ∧
    renewStep ["A", "B"] (.response 500 "x") =
      ⟨rotateCurrentServiceUrl ["A", "B"], true, true, []⟩ :=
  ⟨(renew_outcome_analysis ["A", "B"] (.response 404 "")).2.1 "" rfl,
   (renew_outcome_analysis ["A", "B"] (.response 500 "x")).2.2.2 500 "x" rfl
     (by decide) (by decide)⟩

/-- A two-instance application whose instances advertise different VIP
addresses. -/
def appTwoVips : AppRecord :=
  ⟨"app-x", .array [⟨"vip-1", "UP"⟩, ⟨"vip-2", "UP"⟩]⟩

/-- Counterexample to C5: for an application with two UP instances on
distinct VIP addresses, the cached list contains the second instance, yet the
VIP mapping has no entry under that instance's own VIP address — only the
first instance's VIP is indexed. -/
theorem transformApp_second_vip_not_indexed :
    getKey (transformApp true appTwoVips emptyCache).app "APP-X" =
      some [⟨"vip-1", "UP"⟩, ⟨"vip-2", "UP"⟩] ∧
    getKey (transformApp true appTwoVips emptyCache).vip "vip-2" = none ∧
    getKey (transformApp true appTwoVips emptyCache).vip "vip-1" =
      some [⟨"vip-1", "UP"⟩, ⟨"vip-2", "UP"⟩] := by
  decide

/-- Claim C5 (amended): the normalized, optionally UP-filtered instance list
is indexed under the upper-cased application name and under a single VIP key
— the VIP address of the first instance of the payload (its own VIP address
for a single-instance entry); instances whose VIP differs from the first
instance's are not reachable under their own VIP key. -/
theorem transformApp_indexes_under_first_vip (filterUp : Bool) (a : AppRecord)
    (c : Cache) :
    (∀ i0 rest, a.inst = .array (i0 :: rest) →
      getKey (transformApp filterUp a c).app (toUpperCase a.name) =
        some ((i0 :: rest).filter (validateInstance filterUp)) ∧
      getKey (transformApp filterUp a c).vip i0.vipAddress =
        some ((i0 :: rest).filter (validateInstance filterUp))) ∧
    (∀ i, a.inst = .single i → validateInstance filterUp i = true →
      getKey (transformApp filterUp a c).app (toUpperCase a.name) = some [i] ∧
      getKey (transformApp filterUp a c).vip i.vipAddress = some [i]) := by
  obtain ⟨nm, inst⟩ := a
  constructor
  · rintro i0 rest h
    simp only at h
    subst h
    exact ⟨by simp [transformApp, getKey_setKey_self],
           by simp [transformApp, getKey_setKey_self]⟩
  · rintro i h hv
    simp only at h
    subst h
    exact ⟨by simp [transformApp, hv, getKey_setKey_self],
           by simp [transformApp, hv, getKey_setKey_self]⟩

/-- Witness for the amended C5 on a single valid instance. -/
theorem transformApp_indexes_under_first_vip_witness :
    getKey (transformApp true ⟨"a", .single ⟨"v", "UP"⟩⟩ emptyCache).app
      "A" = some [⟨"v", "UP"⟩] ∧
    getKey (transformApp true ⟨"a", .single ⟨"v", "UP"⟩⟩ emptyCache).vip
      "v" = some [⟨"v", "UP"⟩] :=
  (transformApp_indexes_under_first_vip true ⟨"a", .single ⟨"v", "UP"⟩⟩
    emptyCache).2 ⟨"v", "UP"⟩ rfl (by decide)

/-- Claim C8: for the same application name and a valid instance, the
single-object payload and the one-element-array payload produce identical
caches, with the single instance normalized to a one-element list under both
the app-id key and the VIP key. -/
theorem transformApp_single_normalized_to_list (filterUp : Bool)
    (name : String) (i : InstanceRecord) (c : Cache)
    (h : validateInstance filterUp i = true) :
    transformApp filterUp ⟨name, .single i⟩ c =
      transformApp filterUp ⟨name, .array [i]⟩ c ∧
    buildCache filterUp (.one ⟨name, .single i⟩) =
      buildCache filterUp (.one ⟨name, .array [i]⟩) ∧
    getKey (transformApp filterUp ⟨name, .single i⟩ c).app (toUpperCase name) =
      some [i] ∧
    getKey (transformApp filterUp ⟨name, .single i⟩ c).vip i.vipAddress =
      some [i] := by
  have hmain : ∀ c2 : Cache, transformApp filterUp ⟨name, .single i⟩ c2 =
      transformApp filterUp ⟨name, .array [i]⟩ c2 := by
    intro c2
    simp [transformApp, List.filter_cons, h]
  refine ⟨hmain c, ?_, ?_, ?_⟩
  · simpa [buildCache] using hmain emptyCache
  · simp [transformApp, h, getKey_setKey_self]
  · simp [transformApp, h, getKey_setKey_self]

/-- Witness for C8 on a concrete UP instance. -/
theorem transformApp_single_normalized_to_list_witness :
    transformApp true ⟨"a", .single ⟨"v", "UP"⟩⟩ emptyCache =
      transformApp true ⟨"a", .array [⟨"v", "UP"⟩]⟩ emptyCache ∧
    buildCache true (.one ⟨"a", .single ⟨"v", "UP"⟩⟩) =
      buildCache true (.one ⟨"a", .array [⟨"v", "UP"⟩]⟩) ∧
    getKey (transformApp true ⟨"a", .single ⟨"v", "UP"⟩⟩ emptyCache).app
      "A" = some [⟨"v", "UP"⟩] ∧
    getKey (transformApp true ⟨"a", .single ⟨"v", "UP"⟩⟩ emptyCache).vip
      "v" = some [⟨"v", "UP"⟩] :=
  transformApp_single_normalized_to_list true "a" ⟨"v", "UP"⟩ emptyCache
    (by decide)

/-- The parsed form of the static service URL
`http://eureka.example.com:8080/eureka/apps/`. -/
def parsedExample : ParsedUrl :=
  ⟨"http:", some "eureka.example.com:8080", "eureka.example.com",
    some "8080", "/eureka/apps/"⟩

/-- Evidence for C6 (code bug): `locateEurekaHostUsingDns` does report a
missing region or a first-lookup failure as an error, but
`lookupCurrentEurekaHost` drops that error — its callback gets `null` — and
formats the current URL with an unset host, which falls back to the static
hostname and port, so the caller proceeds against the static host. -/
theorem dnsError_swallowed_and_static_host_used :
    locateEurekaHostUsingDns none (.ok [["r1"]]) (.ok [["host1", "host2"]]) =
      .error ("EC2 region was undefined. " ++
        "config.eureka.ec2Region must be set to resolve Eureka using DNS records.") ∧
    locateEurekaHostUsingDns (some "us-east-1") (.error "ETIMEOUT")
        (.ok [["host1"]]) =
      .error
        "Error resolving eureka server list for region [us-east-1] using DNS: [ETIMEOUT]" ∧
    locateEurekaHostUsingDns (some "us-east-1") (.ok [["r1"]])
        (.error "ENOTFOUND") =
      .error "Error locating eureka server using DNS: [ENOTFOUND]" ∧
    lookupCurrentEurekaHost_dns parsedExample (.error "EC2 region was undefined.")
        none =
      ⟨none, "http://eureka.example.com:8080/eureka/apps/", .undef⟩ ∧
    lookupCurrentEurekaHost_dns parsedExample (.error "ENOTFOUND") none =
      ⟨none, "http://eureka.example.com:8080/eureka/apps/", .undef⟩ :=
  ⟨rfl, rfl, rfl, rfl, rfl⟩

/-- Counterexample to C7: with OAuth2 enabled and a failed token acquisition
on a client that never fetched a token, the outbound request is still issued
— and it does carry an `Authorization` header, reading `Bearer undefined`,
because the stored empty token object is truthy. -/
theorem tokenFailure_header_still_attached :
    outboundRequest
      (lookupCurrentEurekaHost_static "http://eureka.example.com:8080/eureka/apps/"
        (some (getTokenForClientCredentials initialToken (.error "invalid_client"))))
      [] =
      some ("http://eureka.example.com:8080/eureka/apps/",
        [("Authorization", "Bearer undefined")]) := by
  decide

/-- Claim C7 (amended): when token acquisition fails, the endpoint-resolution
callback reports no error and the outbound call proceeds, but the request
carries the authorization header derived from the stored token object —
`Authorization: Bearer undefined` when no token had ever been fetched. -/
theorem tokenFailure_proceeds_with_stored_token (u : String) (base : Headers)
    (e : String) (stored : JsToken) :
    (lookupCurrentEurekaHost_static u
        (some (getTokenForClientCredentials stored (.error e)))).err = none ∧
    outboundRequest
      (lookupCurrentEurekaHost_static u
        (some (getTokenForClientCredentials stored (.error e)))) base =
      some (u, setAuthorizationInHeader base stored) ∧
    setAuthorizationInHeader base initialToken =
      setKey base "Authorization" "Bearer undefined" :=
  ⟨rfl, rfl, rfl⟩

end Eureka
